import Mathlib

/- Shallow embedding of the xgfone/go-http-middlewares repository: the
   opentracing client RoundTripper and server ServerHandler wrappers
   (opentracing/client.go, opentracing/server.go, opentracing/option.go)
   and the prometheus metrics server ServerHandler (prometheus/server.go).

   Modelling conventions:
   * Go nil-able function fields become Lean `Option` function fields.
   * The observable behaviour of a request is an explicit trace of events
     (spans started/finished, hooks invoked, delegation to the wrapped
     transport/handler, metric increments/observations).
   * A wrapped handler/transport is an abstract function; a wrapped
     handler's own actions are opaque steps (`Event.handlerStep`).
   * The opentracing-go library types (Tracer, StartSpanOption,
     ext.RPCServerOption) are external collaborators and are modelled from
     their documented semantics. -/

/-- Models net/url.URL: only the path and the rendered form u.String()
are observed by this repository. -/
structure URL where
  path : String
  full : String
deriving DecidableEq, Repr

/-- Models opentracing.SpanContext: the serializable identity of a span. -/
structure SpanContext where
  traceId : Nat
  spanId : Nat
deriving DecidableEq, Repr

/-- Models a Go error value. -/
structure GoError where
  msg : String
deriving DecidableEq, Repr

/-- Models an http.Response (opaque to the wrappers). -/
structure Response where
  statusCode : Nat
deriving DecidableEq, Repr

/-- Header maps and tag maps: association lists of string pairs. -/
abbrev Tags := List (String × String)

/-- Models an opentracing span: operation name, at most one parent
reference fixed at start time, the span.kind tag set via start options,
and the tags set afterwards with Set calls. -/
structure Span where
  sc : SpanContext
  operationName : String
  parent : Option SpanContext
  isRPCClient : Bool
  isRPCServer : Bool
  tags : Tags
deriving DecidableEq, Repr

/-- Models an http.Request: method, URL, header, and the span held by the
request context (opentracing.SpanFromContext / ContextWithSpan). -/
structure Request where
  method : String
  url : URL
  header : Tags
  ctxSpan : Option Span
deriving DecidableEq, Repr

/-- Models an http.ResponseWriter; hasStatusCode is the type assertion
to the prometheus.ResponseWriter capability with StatusCode(). -/
structure ResponseWriter where
  hasStatusCode : Bool
  statusCode : Nat
deriving DecidableEq, Repr

/-- Models opentracing.StartSpanOption as used by this repository:
span.kind client/server tags and a ChildOf parent reference. -/
inductive StartSpanOption where
  | spanKindRPCClient
  | spanKindRPCServer
  | childOf (sc : SpanContext)
deriving DecidableEq, Repr

/-- Models an opentracing.Tracer collaborator: Extract returns a span
context or an error, Inject adds carrier headers. The disabled flag marks
a noop tracer (a tracer that is not enabled); the repository code never
reads it. Inject's error result is discarded by the caller and omitted. -/
structure Tracer where
  disabled : Bool
  extract : Tags → Except GoError SpanContext
  inject : SpanContext → Tags → Tags

/-- Models opentracing.GlobalTracer(): the library default is the noop
tracer, whose Extract always fails and whose Inject adds nothing. -/
def GlobalTracer : Tracer where
  disabled := true
  extract := fun _ => Except.error { msg := "opentracing: SpanContext not found in Extract carrier" }
  inject := fun _ hs => hs

/-- First ChildOf reference among the start options (a span has zero or
one parent; the repository never passes more than one). -/
def findChildOf : List StartSpanOption → Option SpanContext
  | [] => none
  | StartSpanOption.childOf sc :: _ => some sc
  | _ :: rest => findChildOf rest

/-- Whether the start options carry the span.kind=client tag. -/
def hasClientKind : List StartSpanOption → Bool
  | [] => false
  | StartSpanOption.spanKindRPCClient :: _ => true
  | _ :: rest => hasClientKind rest

/-- Whether the start options carry the span.kind=server tag. -/
def hasServerKind : List StartSpanOption → Bool
  | [] => false
  | StartSpanOption.spanKindRPCServer :: _ => true
  | _ :: rest => hasServerKind rest

/-- Models tracer.StartSpan(operationName, opts...): the new span's parent
is the ChildOf reference (if any), its kind comes from the kind options,
and it starts with no further tags. The concrete identifiers are chosen
deterministically; only the parent reference matters to the wrappers. -/
def startSpan (opName : String) (opts : List StartSpanOption) : Span :=
  let parent := findChildOf opts
  { sc := match parent with
      | some p => { traceId := p.traceId, spanId := p.spanId + 1 }
      | none => { traceId := 0, spanId := 0 }
    operationName := opName
    parent := parent
    isRPCClient := hasClientKind opts
    isRPCServer := hasServerKind opts
    tags := [] }

/-- Models ext.RPCServerOption(client) from opentracing-go: ChildOf(client)
when a client span context was extracted, plus the span.kind=server tag. -/
def RPCServerOption (client : Option SpanContext) : List StartSpanOption :=
  (match client with
   | some sc => [StartSpanOption.childOf sc]
   | none => []) ++ [StartSpanOption.spanKindRPCServer]

abbrev OptTracer := Option Tracer
abbrev OptNameFun := Option (Request → String)
abbrev OptURLFun := Option (URL → String)
abbrev OptFilter := Option (Request → Bool)
abbrev OptObserver := Option (Request → Tags → Tags)
abbrev OptStartHook := Option (ResponseWriter → Request → ResponseWriter × Request)
abbrev OptEndHook := Option (ResponseWriter → Request → Span → Unit)
abbrev OptErr := Option GoError
abbrev OptNat := Option Nat
abbrev RTResult := Option Response × OptErr
abbrev Transport := Request → RTResult
abbrev OptTransport := Option Transport

/-- Default ComponentNameFunc set by Option.Init. -/
def defaultComponentName : Request → String := fun _ => "net/http"

/-- Default URLTagFunc set by Option.Init: url.String(). -/
def defaultURLTag : URL → String := fun u => u.full

/-- Default SpanFilter set by Option.Init: never filter. -/
def defaultSpanFilter : Request → Bool := fun _ => false

/-- Default SpanObserver set by Option.Init: do nothing. -/
def defaultSpanObserver : Request → Tags → Tags := fun _ tags => tags

/-- Default OperationNameFunc set by Option.Init:
fmt.Sprintf("HTTP %s %s", r.Method, r.URL.Path). -/
def defaultOperationName : Request → String := fun r => "HTTP " ++ r.method ++ " " ++ r.url.path

/- Calling a nil Go function value would panic; every construction path of
   this repository (NewRoundTripper, NewServerHandler, the Middleware
   constructors) runs Option.Init first, so a nil field is unreachable at
   call time and is modelled by the corresponding Init default. -/

/-- Invocation of the (promoted) ComponentNameFunc field. -/
def callComponentName (f : OptNameFun) (r : Request) : String := (f.getD defaultComponentName) r

/-- Invocation of the (promoted) URLTagFunc field. -/
def callURLTag (f : OptURLFun) (u : URL) : String := (f.getD defaultURLTag) u

/-- Invocation of the (promoted) SpanFilter field. -/
def callFilter (f : OptFilter) (r : Request) : Bool := (f.getD defaultSpanFilter) r

/-- Invocation of the (promoted) SpanObserver field, as a tag transform. -/
def callObserver (f : OptObserver) (r : Request) (t : Tags) : Tags := (f.getD defaultSpanObserver) r t

/-- Invocation of the (promoted) OperationNameFunc field. -/
def callOperationName (f : OptNameFun) (r : Request) : String := (f.getD defaultOperationName) r

/-- The Start pre-hook block of opentracing.ServerHandler.Serve:
w, r = sh.Start(w, r) when the hook is set. -/
def startApply (start : OptStartHook) (w : ResponseWriter) (r : Request) : ResponseWriter × Request :=
  match start with
  | some f => f w r
  | none => (w, r)

/-- Models an http.Handler value. Its own actions are opaque numbered
steps. isMiddlewaresHandler records whether the dynamic type also
implements middlewares.Handler (the error-returning HandleHTTP surface),
which the prometheus Serve detects with a type assertion. -/
structure HTTPHandler where
  isMiddlewaresHandler : Bool
  serveHTTP : ResponseWriter → Request → List Nat
  handleHTTP : ResponseWriter → Request → List Nat × OptErr

/-- Observable actions of one request through the wrappers. -/
inductive Event where
  | handlerStep (n : Nat)
  | startHook
  | endHook
  | spanStarted (sp : Span)
  | spanFinished (sc : SpanContext)
  | delegated (req : Request)
  | counterInc (labels : Tags)
  | histObserve (labels : Tags)
deriving DecidableEq, Repr

namespace opentracing

/-- Embeds opentracing/option.go type Option: the pluggable configuration
shared by the RoundTripper and the ServerHandler. -/
structure Option where
  Tracer : OptTracer := none
  ComponentName : String := ""
  ComponentNameFunc : OptNameFun := none
  URLTagFunc : OptURLFun := none
  SpanFilter : OptFilter := none
  OperationNameFunc : OptNameFun := none
  SpanObserver : OptObserver := none

/-- Embeds Option.Init (opentracing/option.go): each unset function field
is filled with its default, in source order. -/
def Option.Init (o : Option) : Option :=
  let o := if o.ComponentNameFunc.isNone then { o with ComponentNameFunc := some defaultComponentName } else o
  let o := if o.URLTagFunc.isNone then { o with URLTagFunc := some defaultURLTag } else o
  let o := if o.SpanFilter.isNone then { o with SpanFilter := some defaultSpanFilter } else o
  let o := if o.SpanObserver.isNone then { o with SpanObserver := some defaultSpanObserver } else o
  let o := if o.OperationNameFunc.isNone then { o with OperationNameFunc := some defaultOperationName } else o
  o

/-- Embeds Option.GetComponentName: ComponentName if non-empty, else
ComponentNameFunc(req). -/
def Option.GetComponentName (o : Option) (req : Request) : String :=
  if o.ComponentName = "" then callComponentName o.ComponentNameFunc req
  else o.ComponentName

/-- Embeds Option.GetTracer: the configured tracer, else the global one.
The result type is the root Tracer structure, left to inference because
the name Tracer here resolves to the Option field projection. -/
def Option.GetTracer (o : Option) :=
  match o.Tracer with
  | some t => t
  | none => GlobalTracer

/-- Embeds opentracing/client.go type RoundTripper: the wrapped transport
(nil means http.DefaultTransport) and the shared Option. -/
structure RoundTripper where
  RoundTripper : OptTransport := none
  Option : Option := {}

/-- Embeds NewRoundTripper: store the wrapped transport and Init the
zero-valued Option. -/
def NewRoundTripper (rt : OptTransport) : RoundTripper :=
  { RoundTripper := rt, Option := Option.Init {} }

/-- Embeds RoundTripper.WrappedRoundTripper. -/
def RoundTripper.WrappedRoundTripper (rt : opentracing.RoundTripper) : OptTransport :=
  rt.RoundTripper

/-- Embeds the private RoundTripper.roundTrip: delegate to the wrapped
transport, or to http.DefaultTransport (the ambient process default,
passed here as dt) when none was configured. -/
def RoundTripper.roundTrip (dt : Transport) (rt : opentracing.RoundTripper) (req : Request) : RTResult :=
  match rt.RoundTripper with
  | none => dt req
  | some t => t req

/-- The span built by RoundTripper.RoundTrip for a non-filtered request:
start options are ChildOf the context span when one is present, else the
RPC-client kind; then the http.url, component and http.method tags and
the SpanObserver hook are applied, in source order. -/
def RoundTripper.clientSpan (rt : opentracing.RoundTripper) (req : Request) : Span :=
  let opts := match req.ctxSpan with
    | some pspan => [StartSpanOption.childOf pspan.sc]
    | none => [StartSpanOption.spanKindRPCClient]
  let sp0 := startSpan (callOperationName rt.Option.OperationNameFunc req) opts
  let sp1 := { sp0 with tags := sp0.tags ++
    [("http.url", callURLTag rt.Option.URLTagFunc req.url),
     ("component", rt.Option.GetComponentName req),
     ("http.method", req.method)] }
  { sp1 with tags := callObserver rt.Option.SpanObserver req sp1.tags }

/-- The request delegated by RoundTrip on the traced path: the tracing
headers injected by tracer.Inject (the carrier aliases the request's
header map) and the span attached to the request context. -/
def RoundTripper.clientReq (rt : opentracing.RoundTripper) (req : Request) : Request :=
  let sp := rt.clientSpan req
  { req with header := (rt.Option.GetTracer).inject sp.sc req.header
             ctxSpan := some sp }

/-- Embeds RoundTripper.RoundTrip (opentracing/client.go): a filtered
request delegates directly and unmodified; otherwise the span is started,
tagged and observed, its context injected into the headers, the request
delegated with the span-bearing context, and the span finished (deferred)
on every exit path. The first component is the (response, error) pair,
the second the event trace. -/
def RoundTripper.RoundTrip (dt : Transport) (rt : opentracing.RoundTripper) (req : Request) :
    RTResult × List Event :=
  if callFilter rt.Option.SpanFilter req then
    (rt.roundTrip dt req, [Event.delegated req])
  else
    (rt.roundTrip dt (rt.clientReq req),
     [Event.spanStarted (rt.clientSpan req),
      Event.delegated (rt.clientReq req),
      Event.spanFinished (rt.clientSpan req).sc])

/-- Embeds opentracing/server.go type ServerHandler: the wrapped handler,
the shared Option, and the optional Start and End hooks. -/
structure ServerHandler where
  Handler : HTTPHandler
  Option : Option := {}
  Start : OptStartHook := none
  End : OptEndHook := none

/-- Embeds NewServerHandler: store the wrapped handler and Init the
zero-valued Option. -/
def NewServerHandler (handler : HTTPHandler) : ServerHandler :=
  { Handler := handler, Option := Option.Init {} }

/-- Embeds ServerHandler.WrappedHandler. -/
def ServerHandler.WrappedHandler (sh : ServerHandler) : HTTPHandler :=
  sh.Handler

/-- The span built by ServerHandler.Serve for a non-filtered request,
from the post-Start-hook request r: the parent span context is extracted
from the headers (a failed extraction yields none), the span starts with
ext.RPCServerOption, then the http.method, component and http.url tags
and the SpanObserver hook are applied, in source order. -/
def ServerHandler.serverSpan (sh : ServerHandler) (r : Request) : Span :=
  let sc := ((sh.Option.GetTracer).extract r.header).toOption
  let sp0 := startSpan (callOperationName sh.Option.OperationNameFunc r) (RPCServerOption sc)
  let sp1 := { sp0 with tags := sp0.tags ++
    [("http.method", r.method),
     ("component", sh.Option.GetComponentName r),
     ("http.url", callURLTag sh.Option.URLTagFunc r.url)] }
  { sp1 with tags := callObserver sh.Option.SpanObserver r sp1.tags }

/-- Embeds ServerHandler.Serve (opentracing/server.go). The argument h is
never used: both the filtered and the traced path delegate to the stored
sh.Handler. On the traced path, a set Start hook runs first and its
results replace w and r; the span is then started and attached to the
request context, the wrapped handler runs, and the deferred calls fire in
LIFO order: the End hook (if set), then Finish. -/
def ServerHandler.Serve (sh : ServerHandler) (h : HTTPHandler) (w : ResponseWriter) (r : Request) :
    List Event :=
  if callFilter sh.Option.SpanFilter r then
    (sh.Handler.serveHTTP w r).map Event.handlerStep
  else
    let w2 := (startApply sh.Start w r).1
    let r2 := (startApply sh.Start w r).2
    let sp := sh.serverSpan r2
    let r3 := { r2 with ctxSpan := some sp }
    (match sh.Start with
     | some _ => [Event.startHook]
     | none => [])
    ++ (Event.spanStarted sp :: (sh.Handler.serveHTTP w2 r3).map Event.handlerStep)
    ++ (match sh.End with
        | some _ => [Event.endHook]
        | none => [])
    ++ [Event.spanFinished sp.sc]

/-- Embeds ServerHandler.HandleHTTP, the middlewares.Handler surface: per
its doc comment it equals serving with the stored handler; Serve produces
no error, so the surfaced error is nil. -/
def ServerHandler.HandleHTTP (sh : ServerHandler) (rw : ResponseWriter) (req : Request) :
    List Event × OptErr :=
  (sh.Serve sh.Handler rw req, none)

/-- Embeds ServerHandler.ServeHTTP, the plain http.Handler surface. -/
def ServerHandler.ServeHTTP (sh : ServerHandler) (rw : ResponseWriter) (req : Request) :
    List Event :=
  sh.Serve sh.Handler rw req

/-- Embeds opentracing.Middleware: Init the handler's Option once, then
serve every request through sh.Serve applied to the composed next
handler. -/
def Middleware (sh : ServerHandler) : HTTPHandler → ResponseWriter → Request → List Event :=
  let sh2 := { sh with Option := sh.Option.Init }
  fun wrappedNext rw r => sh2.Serve wrappedNext rw r

end opentracing

namespace prometheus

/-- Embeds prometheus/server.go type Option. The Registerer is an opaque
registry handle (nil means the process default registry); Buckets are the
histogram bucket boundaries. All fields default to the Go zero value. -/
structure Option where
  Registerer : OptNat := none
  Namespace : String := ""
  Subsystem : String := ""
  Buckets : List Float := []
  Path : Bool := false
  Code : Bool := false
  Method : Bool := false

/-- Embeds DefaultHistogramBuckets. -/
def DefaultHistogramBuckets : List Float :=
  [0.005, 0.01, 0.025, 0.05, 0.075, 0.1, 0.25, 0.5, 0.75, 1, 1.5, 2]

/-- The label-name list built by the sync.Once-guarded _init2: method,
path, code, each when its flag is enabled, in source append order. -/
def labelsOf (o : Option) : List String :=
  (if o.Method then ["method"] else [])
  ++ (if o.Path then ["path"] else [])
  ++ (if o.Code then ["code"] else [])

/-- The bucket boundaries used by _init2: the configured Buckets when
non-empty, else DefaultHistogramBuckets (copied; the copy is identity
under value semantics). -/
def bucketsOf (o : Option) : List Float :=
  if o.Buckets.length = 0 then DefaultHistogramBuckets else o.Buckets

/-- Embeds prometheus/server.go type ServerHandler. The metric vectors
created once by _init2 are represented by their label names, derived from
the Option by labelsOf. -/
structure ServerHandler where
  Handler : HTTPHandler
  Option : Option := {}

/-- Embeds prometheus.NewServerHandler: the Method and Code labels are
enabled by default. -/
def NewServerHandler (handler : HTTPHandler) : ServerHandler :=
  { Handler := handler, Option := { Method := true, Code := true } }

/-- Embeds prometheus ServerHandler.WrappedHandler. -/
def ServerHandler.WrappedHandler (sh : ServerHandler) : HTTPHandler :=
  sh.Handler

/-- The label map built by the deferred ServerHandler.handle: the Go loop
walks the label names from the last index down to 0 and sets the method,
path and code entries of a map (other names add no entry); the resulting
map is this association list in insertion order. The observed wall-clock
duration value is outside the model. -/
def buildLabels (names : List String) (code : Nat) (r : Request) : Tags :=
  names.reverse.filterMap (fun name =>
    if name = "code" then some ("code", toString code)
    else if name = "path" then some ("path", r.url.path)
    else if name = "method" then some ("method", r.method)
    else none)

/-- The metric recording step of ServerHandler.handle: resolve the status
code, build the labels, then increment the counter and observe the
duration with the same labels. -/
def ServerHandler.handle (sh : ServerHandler) (w : ResponseWriter) (r : Request) : List Event :=
  let code := if w.hasStatusCode then w.statusCode else 200
  let labels := buildLabels (labelsOf sh.Option) code r
  [Event.counterInc labels, Event.histObserve labels]

/-- Embeds prometheus ServerHandler.Serve: after the lazy _init, delegate
to h through its middlewares.Handler surface when its dynamic type has
one (keeping the returned error), else through the plain ServeHTTP (the
error stays nil); the deferred handle records the metrics after the
delegated call returns. -/
def ServerHandler.Serve (sh : ServerHandler) (h : HTTPHandler) (w : ResponseWriter) (r : Request) :
    List Event × OptErr :=
  let hres := if h.isMiddlewaresHandler then h.handleHTTP w r else (h.serveHTTP w r, none)
  (hres.1.map Event.handlerStep ++ sh.handle w r, hres.2)

/-- Embeds prometheus ServerHandler.HandleHTTP. -/
def ServerHandler.HandleHTTP (sh : ServerHandler) (rw : ResponseWriter) (req : Request) :
    List Event × OptErr :=
  sh.Serve sh.Handler rw req

/-- Embeds prometheus ServerHandler.ServeHTTP: the same serve, with the
error discarded. -/
def ServerHandler.ServeHTTP (sh : ServerHandler) (rw : ResponseWriter) (req : Request) :
    List Event :=
  (sh.Serve sh.Handler rw req).1

end prometheus

/- Concrete sample values used by the closed instance theorems below. -/

/-- A disabled (noop) tracer: Extract always fails, Inject adds nothing. -/
def disabledTracer : Tracer where
  disabled := true
  extract := fun _ => Except.error { msg := "span context not found" }
  inject := fun _ hs => hs

/-- A second always-failing tracer with a different error value. -/
def failTracer2 : Tracer where
  disabled := false
  extract := fun _ => Except.error { msg := "malformed headers" }
  inject := fun _ hs => hs

/-- A tracer whose Extract inverts its Inject on the carrier header it
writes: the trace id is encoded as the header value's length. -/
def xTracer : Tracer where
  disabled := false
  extract := fun hs => match hs.lookup "x-span" with
    | some v => Except.ok { traceId := v.length, spanId := 0 }
    | none => Except.error { msg := "span context not found" }
  inject := fun sc hs => ("x-span", String.mk (List.replicate sc.traceId 'x')) :: hs

/-- Sample URL. -/
def urlA : URL := { path := "/widgets/42", full := "http://example.com/widgets/42" }

/-- Sample request: GET, empty headers, no context span. -/
def reqA : Request := { method := "GET", url := urlA, header := [], ctxSpan := none }

/-- Sample writer without the StatusCode capability. -/
def wA : ResponseWriter := { hasStatusCode := false, statusCode := 0 }

/-- Sample wrapped handler performing one opaque step. -/
def handlerA : HTTPHandler where
  isMiddlewaresHandler := false
  serveHTTP := fun _ _ => [1]
  handleHTTP := fun _ _ => ([1], none)

/-- A filter predicate that always filters. -/
def trueFilter : Request → Bool := fun _ => true

/-- A filter predicate that never filters. -/
def falseFilter : Request → Bool := fun _ => false

/-- A transport that always fails with an error. -/
def errTransport : Transport := fun _ => (none, some { msg := "connection refused" })

/-- A client wrapper whose filter always answers true. -/
def rtFiltered : opentracing.RoundTripper :=
  { RoundTripper := some errTransport
    Option := { SpanFilter := some trueFilter } }

/-- A server wrapper whose filter always answers true. -/
def shFiltered : opentracing.ServerHandler :=
  { Handler := handlerA
    Option := { SpanFilter := some trueFilter } }

/-- A client wrapper whose filter never answers true. -/
def rtPlain : opentracing.RoundTripper :=
  { RoundTripper := some errTransport
    Option := { SpanFilter := some falseFilter } }

/-- A server wrapper whose filter never answers true. -/
def shPlain : opentracing.ServerHandler :=
  { Handler := handlerA
    Option := { SpanFilter := some falseFilter } }

/-- An opentracing server handler whose tracer is disabled and whose
Start pre-hook is set (swapping in a status-capturing writer). -/
def shDisabled : opentracing.ServerHandler :=
  { Handler := handlerA
    Option := opentracing.Option.Init { Tracer := some disabledTracer }
    Start := some (fun _ r => ({ hasStatusCode := true, statusCode := 200 }, r))
    End := none }

/-- A context span carried by a sample client request. -/
def spanP : Span :=
  { sc := { traceId := 5, spanId := 9 }
    operationName := "parent"
    parent := none
    isRPCClient := false
    isRPCServer := false
    tags := [] }

/-- Sample client request whose context carries spanP. -/
def reqChild : Request := { reqA with ctxSpan := some spanP }

/-- The known parent span context injected into reqX's headers. -/
def pscX : SpanContext := { traceId := 3, spanId := 0 }

/-- Sample server request carrying headers injected by xTracer for pscX. -/
def reqX : Request := { reqA with header := xTracer.inject pscX [] }

/-- A server wrapper configured with xTracer. -/
def shX : opentracing.ServerHandler :=
  { Handler := handlerA
    Option := { Tracer := some xTracer } }

/-- The server handler with only its configured tracer replaced. -/
def withTracer (sh : opentracing.ServerHandler) (t : Tracer) : opentracing.ServerHandler :=
  { sh with Option := { sh.Option with Tracer := some t } }

/-- Recognizes a span-start event. -/
def isSpanStarted : Event → Bool
  | Event.spanStarted _ => true
  | _ => false

/-- Recognizes a span-finish event. -/
def isSpanFinished : Event → Bool
  | Event.spanFinished _ => true
  | _ => false

/-- Recognizes a counter increment event. -/
def isCounterInc : Event → Bool
  | Event.counterInc _ => true
  | _ => false

/-- Recognizes a histogram observation event. -/
def isHistObserve : Event → Bool
  | Event.histObserve _ => true
  | _ => false

/-- A wrapped handler's own opaque steps contain no span-start events. -/
@[simp] theorem countP_isSpanStarted_handlerSteps (l : List Nat) :
    (l.map Event.handlerStep).countP isSpanStarted = 0 := by
  induction l with
  | nil => rfl
  | cons a t ih => simp [List.countP_cons, isSpanStarted, ih]

/-- A wrapped handler's own opaque steps contain no span-finish events. -/
@[simp] theorem countP_isSpanFinished_handlerSteps (l : List Nat) :
    (l.map Event.handlerStep).countP isSpanFinished = 0 := by
  induction l with
  | nil => rfl
  | cons a t ih => simp [List.countP_cons, isSpanFinished, ih]

/-- A wrapped handler's own opaque steps contain no counter increments. -/
@[simp] theorem countP_isCounterInc_handlerSteps (l : List Nat) :
    (l.map Event.handlerStep).countP isCounterInc = 0 := by
  induction l with
  | nil => rfl
  | cons a t ih => simp [List.countP_cons, isCounterInc, ih]

/-- A wrapped handler's own opaque steps contain no histogram
observations. -/
@[simp] theorem countP_isHistObserve_handlerSteps (l : List Nat) :
    (l.map Event.handlerStep).countP isHistObserve = 0 := by
  induction l with
  | nil => rfl
  | cons a t ih => simp [List.countP_cons, isHistObserve, ih]

/-- Any span-start event in the client trace carries the clientSpan. -/
theorem mem_spanStarted_roundTrip {dt : Transport} {rt : opentracing.RoundTripper}
    {req : Request} {sp : Span}
    (hmem : Event.spanStarted sp ∈ (rt.RoundTrip dt req).2) :
    sp = rt.clientSpan req := by
  by_cases hF : callFilter rt.Option.SpanFilter req = true <;>
    simp [opentracing.RoundTripper.RoundTrip, hF] at hmem
  exact hmem

/-- Any span-start event in the server trace carries the serverSpan of
the post-Start-hook request. -/
theorem mem_spanStarted_serve {sh : opentracing.ServerHandler} {h : HTTPHandler}
    {w : ResponseWriter} {r : Request} {sp : Span}
    (hmem : Event.spanStarted sp ∈ sh.Serve h w r) :
    sp = sh.serverSpan (startApply sh.Start w r).2 := by
  by_cases hF : callFilter sh.Option.SpanFilter r = true
  · simp [opentracing.ServerHandler.Serve, hF] at hmem
  · cases hS : sh.Start <;> cases hE : sh.End <;>
      simp [opentracing.ServerHandler.Serve, hF, hS, hE] at hmem <;>
      simp [hmem, hS]

/-- The parent of the client wrapper's span is the context span's context
(none when the request context holds no span), the RPC-client kind tag is
present exactly on root spans, and the RPC-server kind is never set. -/
theorem clientSpan_parent (rt : opentracing.RoundTripper) (req : Request) :
    (rt.clientSpan req).parent = req.ctxSpan.map Span.sc
    ∧ (rt.clientSpan req).isRPCClient = req.ctxSpan.isNone
    ∧ (rt.clientSpan req).isRPCServer = false := by
  cases hc : req.ctxSpan <;>
    simp [opentracing.RoundTripper.clientSpan, startSpan, findChildOf,
      hasClientKind, hasServerKind, hc]

/-- The parent of the server wrapper's span is the extracted span context
(none when extraction failed) and the RPC-server kind tag is set. -/
theorem serverSpan_parent (sh : opentracing.ServerHandler) (r : Request) :
    (sh.serverSpan r).parent = ((sh.Option.GetTracer).extract r.header).toOption
    ∧ (sh.serverSpan r).isRPCServer = true := by
  cases hsc : ((sh.Option.GetTracer).extract r.header).toOption <;>
    simp [opentracing.ServerHandler.serverSpan, startSpan, RPCServerOption,
      findChildOf, hasServerKind, hsc]

/-- Claim C8: Option.Init is idempotent — running it twice equals running
it once — it never touches Tracer or ComponentName, and every function
field ends up as the user-supplied value when one was set, else the
default; so a user-supplied field is never overwritten. -/
theorem option_init_idempotent (o : opentracing.Option) :
    o.Init.Init = o.Init
    ∧ o.Init.Tracer = o.Tracer
    ∧ o.Init.ComponentName = o.ComponentName
    ∧ o.Init.ComponentNameFunc = some (o.ComponentNameFunc.getD defaultComponentName)
    ∧ o.Init.URLTagFunc = some (o.URLTagFunc.getD defaultURLTag)
    ∧ o.Init.SpanFilter = some (o.SpanFilter.getD defaultSpanFilter)
    ∧ o.Init.SpanObserver = some (o.SpanObserver.getD defaultSpanObserver)
    ∧ o.Init.OperationNameFunc = some (o.OperationNameFunc.getD defaultOperationName) := by
  obtain ⟨t, cn, cnf, utf, sf, onf, so⟩ := o
  cases cnf <;> cases utf <;> cases sf <;> cases onf <;> cases so <;>
    simp [opentracing.Option.Init]

/-- Claim C1 (code bug): the Start/End doc comments say a hook is ignored
when the tracer is not enabled, and the spec repeats it, but Serve
invokes a non-nil Start hook unconditionally: with a disabled tracer
configured and a non-filtered request, the hook still runs as the very
first action of the trace. -/
theorem start_hook_runs_despite_disabled_tracer :
    (shDisabled.Option.GetTracer).disabled = true
    ∧ callFilter shDisabled.Option.SpanFilter reqA = false
    ∧ (shDisabled.Serve handlerA wA reqA).head? = some Event.startHook :=
  ⟨rfl, rfl, rfl⟩

/-- Claim C2: when the filter predicate answers true, the client wrapper
returns the wrapped transport's result on the unmodified request with no
span, header or context activity, and the server wrapper's whole trace is
the wrapped handler run on the unmodified writer and request. -/
theorem filter_bypass
    (dt : Transport) (rt : opentracing.RoundTripper) (req : Request) (f : Request → Bool)
    (hf : rt.Option.SpanFilter = some f) (hfr : f req = true)
    (sh : opentracing.ServerHandler) (h : HTTPHandler) (w : ResponseWriter) (r : Request)
    (g : Request → Bool) (hg : sh.Option.SpanFilter = some g) (hgr : g r = true) :
    rt.RoundTrip dt req = (rt.roundTrip dt req, [Event.delegated req])
    ∧ sh.Serve h w r = (sh.Handler.serveHTTP w r).map Event.handlerStep := by
  constructor
  · simp [opentracing.RoundTripper.RoundTrip, callFilter, hf, hfr]
  · simp [opentracing.ServerHandler.Serve, callFilter, hg, hgr]

/-- Claim C2 witness at concrete inputs. -/
theorem filter_bypass_witness :
    trueFilter reqA = true
    ∧ rtFiltered.RoundTrip errTransport reqA
        = (rtFiltered.roundTrip errTransport reqA, [Event.delegated reqA])
    ∧ shFiltered.Serve handlerA wA reqA
        = (shFiltered.Handler.serveHTTP wA reqA).map Event.handlerStep :=
  ⟨rfl,
   (filter_bypass errTransport rtFiltered reqA trueFilter rfl rfl
      shFiltered handlerA wA reqA trueFilter rfl rfl).1,
   (filter_bypass errTransport rtFiltered reqA trueFilter rfl rfl
      shFiltered handlerA wA reqA trueFilter rfl rfl).2⟩

/-- Claim C9: for both the tracing and the metrics server handlers, the
plain ServeHTTP surface and the error-returning HandleHTTP surface route
through the same internal Serve applied to the stored handler, so both
produce the same trace; only the tracing HandleHTTP additionally reports
a nil error. -/
theorem dual_surface_equivalence
    (sh : opentracing.ServerHandler) (psh : prometheus.ServerHandler)
    (rw : ResponseWriter) (req : Request) :
    sh.ServeHTTP rw req = (sh.HandleHTTP rw req).1
    ∧ sh.HandleHTTP rw req = (sh.Serve sh.Handler rw req, none)
    ∧ psh.ServeHTTP rw req = (psh.HandleHTTP rw req).1
    ∧ psh.HandleHTTP rw req = psh.Serve psh.Handler rw req :=
  ⟨rfl, rfl, rfl, rfl⟩

/-- Claim C10: the tracing ServerHandler's Serve never invokes its
handler argument — both paths run the stored sh.Handler — so Serve is
insensitive to that argument, and the handler opentracing.Middleware
builds ignores the wrappedNext handler it closed over. -/
theorem serve_ignores_handler_argument
    (sh : opentracing.ServerHandler) (h1 h2 n1 n2 : HTTPHandler)
    (w : ResponseWriter) (r : Request) :
    sh.Serve h1 w r = sh.Serve h2 w r
    ∧ opentracing.Middleware sh n1 w r = opentracing.Middleware sh n2 w r :=
  ⟨rfl, rfl⟩

/-- Claim C3: on every non-filtered request, the client and the server
wrapper each start exactly one span and finish exactly one span, and the
finished context is the started span's, whatever the delegated transport
or handler does (success or error). -/
theorem span_finish_exactly_once :
    (∀ (dt : Transport) (rt : opentracing.RoundTripper) (req : Request) (f : Request → Bool),
      rt.Option.SpanFilter = some f → f req = false →
      ((rt.RoundTrip dt req).2.countP isSpanStarted = 1
        ∧ (rt.RoundTrip dt req).2.countP isSpanFinished = 1
        ∧ ∀ sp, Event.spanStarted sp ∈ (rt.RoundTrip dt req).2 →
            Event.spanFinished sp.sc ∈ (rt.RoundTrip dt req).2))
    ∧ (∀ (sh : opentracing.ServerHandler) (h : HTTPHandler) (w : ResponseWriter) (r : Request)
        (g : Request → Bool),
      sh.Option.SpanFilter = some g → g r = false →
      ((sh.Serve h w r).countP isSpanStarted = 1
        ∧ (sh.Serve h w r).countP isSpanFinished = 1
        ∧ ∀ sp, Event.spanStarted sp ∈ sh.Serve h w r →
            Event.spanFinished sp.sc ∈ sh.Serve h w r)) := by
  constructor
  · intro dt rt req f hf hfr
    have hF : callFilter rt.Option.SpanFilter req = false := by simp [callFilter, hf, hfr]
    refine ⟨?_, ?_, ?_⟩
    · simp [opentracing.RoundTripper.RoundTrip, hF, List.countP_cons, isSpanStarted, isSpanFinished]
    · simp [opentracing.RoundTripper.RoundTrip, hF, List.countP_cons, isSpanStarted, isSpanFinished]
    · intro sp hsp
      have hc := mem_spanStarted_roundTrip hsp
      subst hc
      simp [opentracing.RoundTripper.RoundTrip, hF]
  · intro sh h w r g hg hgr
    have hF : callFilter sh.Option.SpanFilter r = false := by simp [callFilter, hg, hgr]
    refine ⟨?_, ?_, ?_⟩
    · cases hS : sh.Start <;> cases hE : sh.End <;>
        simp [opentracing.ServerHandler.Serve, hF, hS, hE, List.countP_append,
          List.countP_cons, isSpanStarted]
    · cases hS : sh.Start <;> cases hE : sh.End <;>
        simp [opentracing.ServerHandler.Serve, hF, hS, hE, List.countP_append,
          List.countP_cons, isSpanFinished]
    · intro sp hsp
      have hc := mem_spanStarted_serve hsp
      subst hc
      cases hS : sh.Start <;> cases hE : sh.End <;>
        simp [opentracing.ServerHandler.Serve, hF, hS, hE]

/-- Claim C3 witness at concrete inputs, with an erroring transport. -/
theorem span_finish_exactly_once_witness :
    falseFilter reqA = false
    ∧ (rtPlain.RoundTrip errTransport reqA).2.countP isSpanStarted = 1
    ∧ (rtPlain.RoundTrip errTransport reqA).2.countP isSpanFinished = 1
    ∧ (shPlain.Serve handlerA wA reqA).countP isSpanStarted = 1
    ∧ (shPlain.Serve handlerA wA reqA).countP isSpanFinished = 1
    ∧ Event.spanFinished (rtPlain.clientSpan reqA).sc ∈ (rtPlain.RoundTrip errTransport reqA).2 :=
  ⟨rfl,
   (span_finish_exactly_once.1 errTransport rtPlain reqA falseFilter rfl rfl).1,
   (span_finish_exactly_once.1 errTransport rtPlain reqA falseFilter rfl rfl).2.1,
   (span_finish_exactly_once.2 shPlain handlerA wA reqA falseFilter rfl rfl).1,
   (span_finish_exactly_once.2 shPlain handlerA wA reqA falseFilter rfl rfl).2.1,
   (span_finish_exactly_once.1 errTransport rtPlain reqA falseFilter rfl rfl).2.2
     (rtPlain.clientSpan reqA) (by decide)⟩

/-- Claim C4: every span the client wrapper starts is a child of the
request-context span's context when one is present, and otherwise a root
span kind-tagged RPC client; every span the server wrapper starts has the
span context extracted from the (post-Start-hook) request headers as its
parent, so a request whose headers were injected from a known context —
for a tracer whose Extract inverts its Inject — yields a child of that
context. -/
theorem parent_propagation :
    (∀ (dt : Transport) (rt : opentracing.RoundTripper) (req : Request) (S : Span),
      req.ctxSpan = some S →
      ∀ sp, Event.spanStarted sp ∈ (rt.RoundTrip dt req).2 → sp.parent = some S.sc)
    ∧ (∀ (dt : Transport) (rt : opentracing.RoundTripper) (req : Request),
      req.ctxSpan = none →
      ∀ sp, Event.spanStarted sp ∈ (rt.RoundTrip dt req).2 →
        sp.parent = none ∧ sp.isRPCClient = true)
    ∧ (∀ (sh : opentracing.ServerHandler) (h : HTTPHandler) (w : ResponseWriter) (r : Request)
        (psc : SpanContext),
      (sh.Option.GetTracer).extract (startApply sh.Start w r).2.header = Except.ok psc →
      ∀ sp, Event.spanStarted sp ∈ sh.Serve h w r →
        sp.parent = some psc ∧ sp.isRPCServer = true)
    ∧ (∀ (sh : opentracing.ServerHandler) (h : HTTPHandler) (w : ResponseWriter) (r : Request)
        (t : Tracer) (psc : SpanContext) (hs : Tags),
      t.extract (t.inject psc hs) = Except.ok psc →
      sh.Option.Tracer = some t → sh.Start = none → r.header = t.inject psc hs →
      ∀ sp, Event.spanStarted sp ∈ sh.Serve h w r →
        sp.parent = some psc ∧ sp.isRPCServer = true) := by
  have hsrv : ∀ (sh : opentracing.ServerHandler) (h : HTTPHandler) (w : ResponseWriter)
      (r : Request) (psc : SpanContext),
      (sh.Option.GetTracer).extract (startApply sh.Start w r).2.header = Except.ok psc →
      ∀ sp, Event.spanStarted sp ∈ sh.Serve h w r →
        sp.parent = some psc ∧ sp.isRPCServer = true := by
    intro sh h w r psc hex sp hmem
    have hc := mem_spanStarted_serve hmem
    subst hc
    have hp := serverSpan_parent sh (startApply sh.Start w r).2
    rw [hex] at hp
    exact ⟨hp.1, hp.2⟩
  refine ⟨?_, ?_, hsrv, ?_⟩
  · intro dt rt req S hS sp hmem
    have hc := mem_spanStarted_roundTrip hmem
    subst hc
    rw [(clientSpan_parent rt req).1, hS]
    rfl
  · intro dt rt req hS sp hmem
    have hc := mem_spanStarted_roundTrip hmem
    subst hc
    have hp := clientSpan_parent rt req
    rw [hS] at hp
    exact ⟨hp.1, hp.2.1⟩
  · intro sh h w r t psc hs hrt htr hstart hhdr sp hmem
    refine hsrv sh h w r psc ?_ sp hmem
    simp [opentracing.Option.GetTracer, htr, startApply, hstart, hhdr, hrt]

/-- Claim C4 witness at concrete inputs: a request with a context span, a
root request, and a server request with headers injected by xTracer. -/
theorem parent_propagation_witness :
    reqChild.ctxSpan = some spanP
    ∧ (rtPlain.clientSpan reqChild).parent = some spanP.sc
    ∧ reqA.ctxSpan = none
    ∧ (rtPlain.clientSpan reqA).parent = none
    ∧ (rtPlain.clientSpan reqA).isRPCClient = true
    ∧ xTracer.extract (xTracer.inject pscX []) = Except.ok pscX
    ∧ (shX.serverSpan reqX).parent = some pscX
    ∧ (shX.serverSpan reqX).isRPCServer = true :=
  ⟨rfl,
   parent_propagation.1 errTransport rtPlain reqChild spanP rfl
     (rtPlain.clientSpan reqChild) (by decide),
   rfl,
   (parent_propagation.2.1 errTransport rtPlain reqA rfl
     (rtPlain.clientSpan reqA) (by decide)).1,
   (parent_propagation.2.1 errTransport rtPlain reqA rfl
     (rtPlain.clientSpan reqA) (by decide)).2,
   rfl,
   (parent_propagation.2.2.2 shX handlerA wA reqX xTracer pscX [] rfl rfl rfl rfl
     (shX.serverSpan reqX) (by decide)).1,
   (parent_propagation.2.2.1 shX handlerA wA reqX pscX rfl
     (shX.serverSpan reqX) (by decide)).2⟩

/-- Claim C5: a failed parent extraction is never surfaced as an error —
any two tracers that fail on the (post-Start-hook) request headers give
identical serve behaviour whatever their error values, the span started
is a root RPC-server span, and the error-returning surface still reports
nil. -/
theorem extract_failure_degrades_to_root
    (sh : opentracing.ServerHandler) (h : HTTPHandler) (w : ResponseWriter) (r : Request)
    (t1 t2 : Tracer) (e1 e2 : GoError)
    (hx1 : t1.extract (startApply sh.Start w r).2.header = Except.error e1)
    (hx2 : t2.extract (startApply sh.Start w r).2.header = Except.error e2) :
    (withTracer sh t1).Serve h w r = (withTracer sh t2).Serve h w r
    ∧ (∀ sp, Event.spanStarted sp ∈ (withTracer sh t1).Serve h w r →
        sp.parent = none ∧ sp.isRPCServer = true)
    ∧ ((withTracer sh t1).HandleHTTP w r).2 = none := by
  refine ⟨?_, ?_, rfl⟩
  · cases hFc : callFilter sh.Option.SpanFilter r <;>
      simp [opentracing.ServerHandler.Serve, opentracing.ServerHandler.serverSpan,
        opentracing.Option.GetTracer, opentracing.Option.GetComponentName, withTracer,
        hFc, hx1, hx2, Except.toOption]
  · intro sp hmem
    have hc := mem_spanStarted_serve hmem
    subst hc
    have hp := serverSpan_parent (withTracer sh t1)
      (startApply (withTracer sh t1).Start w r).2
    refine ⟨?_, hp.2⟩
    rw [hp.1]
    simp [withTracer, opentracing.Option.GetTracer, hx1, Except.toOption]

/-- Claim C5 witness: two concrete failing tracers over the same server
handler and request. -/
theorem extract_failure_witness :
    disabledTracer.extract (startApply shPlain.Start wA reqA).2.header
        = Except.error { msg := "span context not found" }
    ∧ failTracer2.extract (startApply shPlain.Start wA reqA).2.header
        = Except.error { msg := "malformed headers" }
    ∧ (withTracer shPlain disabledTracer).Serve handlerA wA reqA
        = (withTracer shPlain failTracer2).Serve handlerA wA reqA
    ∧ ((withTracer shPlain disabledTracer).serverSpan
        (startApply (withTracer shPlain disabledTracer).Start wA reqA).2).parent = none
    ∧ ((withTracer shPlain disabledTracer).HandleHTTP wA reqA).2 = none :=
  ⟨rfl, rfl,
   (extract_failure_degrades_to_root shPlain handlerA wA reqA disabledTracer failTracer2
      { msg := "span context not found" } { msg := "malformed headers" } rfl rfl).1,
   ((extract_failure_degrades_to_root shPlain handlerA wA reqA disabledTracer failTracer2
      { msg := "span context not found" } { msg := "malformed headers" } rfl rfl).2.1
      ((withTracer shPlain disabledTracer).serverSpan
        (startApply (withTracer shPlain disabledTracer).Start wA reqA).2) (by decide)).1,
   (extract_failure_degrades_to_root shPlain handlerA wA reqA disabledTracer failTracer2
      { msg := "span context not found" } { msg := "malformed headers" } rfl rfl).2.2⟩

/-- Lookup of the method label in the label map built by handle. -/
theorem buildLabels_lookup_method (o : prometheus.Option) (code : Nat) (r : Request) :
    (prometheus.buildLabels (prometheus.labelsOf o) code r).lookup "method"
      = if o.Method then some r.method else none := by
  obtain ⟨reg, ns, ss, bk, pa, co, me⟩ := o
  cases pa <;> cases co <;> cases me <;> rfl

/-- Lookup of the path label in the label map built by handle. -/
theorem buildLabels_lookup_path (o : prometheus.Option) (code : Nat) (r : Request) :
    (prometheus.buildLabels (prometheus.labelsOf o) code r).lookup "path"
      = if o.Path then some r.url.path else none := by
  obtain ⟨reg, ns, ss, bk, pa, co, me⟩ := o
  cases pa <;> cases co <;> cases me <;> rfl

/-- Lookup of the code label in the label map built by handle. -/
theorem buildLabels_lookup_code (o : prometheus.Option) (code : Nat) (r : Request) :
    (prometheus.buildLabels (prometheus.labelsOf o) code r).lookup "code"
      = if o.Code then some (toString code) else none := by
  obtain ⟨reg, ns, ss, bk, pa, co, me⟩ := o
  cases pa <;> cases co <;> cases me <;> rfl

/-- Claim C6: the client wrapper returns exactly the (response, error)
pair the wrapped transport produced for the delegated request, and the
prometheus Serve returns exactly the error of the wrapped handler's
error-returning surface (nil when only the plain surface exists); no
result is swallowed, transformed or replaced. -/
theorem observational_transparency
    (dt : Transport) (rt : opentracing.RoundTripper) (req : Request)
    (psh : prometheus.ServerHandler) (h : HTTPHandler) (w : ResponseWriter) (r : Request) :
    (∃ req2, Event.delegated req2 ∈ (rt.RoundTrip dt req).2
      ∧ (rt.RoundTrip dt req).1 = rt.roundTrip dt req2)
    ∧ (psh.Serve h w r).2 = (if h.isMiddlewaresHandler then (h.handleHTTP w r).2 else none) := by
  constructor
  · by_cases hF : callFilter rt.Option.SpanFilter req = true
    · refine ⟨req, ?_, ?_⟩ <;> simp [opentracing.RoundTripper.RoundTrip, hF]
    · refine ⟨rt.clientReq req, ?_, ?_⟩ <;> simp [opentracing.RoundTripper.RoundTrip, hF]
  · cases hm : h.isMiddlewaresHandler <;> simp [prometheus.ServerHandler.Serve, hm]

/-- Claim C7: every request through the metrics wrapper yields, after the
delegated call's own steps, exactly one counter increment and one
histogram observation, both carrying the identical label map built from
the configured label subset; the map holds a method or path entry exactly
when that label is enabled, and a code entry exactly when the code label
is enabled, whose value is the writer's reported status code, or 200 when
the writer lacks the status capability. -/
theorem metric_label_consistency
    (psh : prometheus.ServerHandler) (h : HTTPHandler) (w : ResponseWriter) (r : Request) :
    (∃ hsteps : List Nat,
      (psh.Serve h w r).1 = hsteps.map Event.handlerStep
        ++ [Event.counterInc (prometheus.buildLabels (prometheus.labelsOf psh.Option)
              (if w.hasStatusCode then w.statusCode else 200) r),
            Event.histObserve (prometheus.buildLabels (prometheus.labelsOf psh.Option)
              (if w.hasStatusCode then w.statusCode else 200) r)])
    ∧ (prometheus.buildLabels (prometheus.labelsOf psh.Option)
        (if w.hasStatusCode then w.statusCode else 200) r).lookup "method"
        = (if psh.Option.Method then some r.method else none)
    ∧ (prometheus.buildLabels (prometheus.labelsOf psh.Option)
        (if w.hasStatusCode then w.statusCode else 200) r).lookup "path"
        = (if psh.Option.Path then some r.url.path else none)
    ∧ (prometheus.buildLabels (prometheus.labelsOf psh.Option)
        (if w.hasStatusCode then w.statusCode else 200) r).lookup "code"
        = (if psh.Option.Code then some (toString (if w.hasStatusCode then w.statusCode else 200)) else none)
    ∧ (psh.Serve h w r).1.countP isCounterInc = 1
    ∧ (psh.Serve h w r).1.countP isHistObserve = 1 := by
  refine ⟨⟨(if h.isMiddlewaresHandler then (h.handleHTTP w r).1 else h.serveHTTP w r), ?_⟩,
    buildLabels_lookup_method psh.Option _ r,
    buildLabels_lookup_path psh.Option _ r,
    buildLabels_lookup_code psh.Option _ r, ?_, ?_⟩
  · cases hm : h.isMiddlewaresHandler <;>
      simp [prometheus.ServerHandler.Serve, prometheus.ServerHandler.handle, hm]
  · cases hm : h.isMiddlewaresHandler <;>
      simp [prometheus.ServerHandler.Serve, prometheus.ServerHandler.handle, hm,
        List.countP_append, List.countP_cons, isCounterInc]
  · cases hm : h.isMiddlewaresHandler <;>
      simp [prometheus.ServerHandler.Serve, prometheus.ServerHandler.handle, hm,
        List.countP_append, List.countP_cons, isHistObserve]
